import Mathlib

/-!
Shallow embedding of the chinook-demo backend (Flask routes, DevboxManager,
VisualizationManager) and proofs about its documented behaviour.

External collaborators (the Runloop devbox API, Python's json module, the
OpenAI client, json.dumps) are modelled as parameters or as explicit outcome
types; everything else is translated directly from the Python source.
Python strings are modelled as lists of characters where index arithmetic
matters, and as Lean String elsewhere; raising an exception is modelled as
Except.error carrying the message.
-/

namespace Chinook

/-! ### Python string primitives -/

/-- Does the second character list start with the first one (helper for the
Python substring test). -/
def headMatches : List Char → List Char → Bool
  | [], _ => true
  | _ :: _, [] => false
  | a :: as, b :: bs => a = b && headMatches as bs

/-- Models the Python test `needle in hay` on strings (substring containment). -/
def pyIn (needle : List Char) : List Char → Bool
  | [] => headMatches needle []
  | b :: bs => headMatches needle (b :: bs) || pyIn needle bs

/-- Substring containment lifted to Lean strings. -/
def pyInStr (needle hay : String) : Bool :=
  pyIn needle.data hay.data

/-- Models Python str.lower (character-wise lowercasing). -/
def pyLower (s : String) : String :=
  String.mk (s.data.map Char.toLower)

/-- Models Python str.find for a single character: index of the first
occurrence, none when absent (Python returns -1 in that case; the callers
below re-introduce the -1 convention where the source relies on it). -/
def findChar (c : Char) : List Char → Option Nat
  | [] => none
  | x :: xs => if x = c then some 0 else (findChar c xs).map (· + 1)

/-- Models Python str.rfind for a single character: index of the last
occurrence, none when absent. -/
def rfindChar (c : Char) : List Char → Option Nat
  | [] => none
  | x :: xs =>
    match rfindChar c xs with
    | some i => some (i + 1)
    | none => if x = c then some 0 else none

/-- Models the Python slice s[a:b] for 0 ≤ a ≤ b (Python clamps b at the
length, as take does). -/
def pySlice (s : List Char) (a b : Nat) : List Char :=
  (s.drop a).take (b - a)

/-! ### Python JSON values -/

/-- Values produced by json.loads. Python booleans are a subtype of int, which
matters for isinstance checks; floats carry a rational value (only their type
and zero-ness are ever inspected by this code base). -/
inductive PyJson where
  | null
  | pybool (b : Bool)
  | pyint (n : Int)
  | pyfloat (q : Rat)
  | pystr (s : String)
  | pylist (xs : List PyJson)
  | pydict (fields : List (String × PyJson))

/-- Python truthiness (`if not data`) of a JSON-decoded value. -/
def pyFalsy : PyJson → Bool
  | .null => true
  | .pybool b => !b
  | .pyint n => n = 0
  | .pyfloat q => q = 0
  | .pystr s => s = ""
  | .pylist xs => xs.isEmpty
  | .pydict fs => fs.isEmpty

/-- Truthiness of dict.get results: an absent key yields Python None, which is
falsy. -/
def pyFalsyOpt : Option PyJson → Bool
  | none => true
  | some v => pyFalsy v

/-- Models dict.get key on a decoded JSON object body. -/
def jsonGet (body : List (String × PyJson)) (key : String) : Option PyJson :=
  (body.find? (fun kv => kv.1 = key)).map (fun kv => kv.2)

/-! ### DevboxManager.init_devbox (manager.py lines 18-34) -/

/-- Remote API calls that init_devbox can issue after the status lookup. -/
inductive DevboxAction where
  | createDevbox
  | resumeAwaitRunning (id : String)
  deriving Repr, DecidableEq

/-- Outcome of runloop_client.devboxes.retrieve for the configured id. The
client is an external collaborator; both plausible absent-id behaviours are
modelled (raising a not-found error, or returning None). -/
inductive LookupResult where
  | found (status : String)
  | raisesNotFound
  | returnsNone
  deriving Repr, DecidableEq

/-- DevboxManager.init_devbox, returning the list of reconciliation actions the
constructor actually performs (in order), or the exception it propagates.
Line-by-line correspondence with manager.py:
* check_devbox_exists catches any retrieve failure and re-raises it (lines
  45-52), so a not-found error from retrieve propagates out of init_devbox;
* if retrieve instead returned None, the f-string on line 23 evaluates
  res.status and raises AttributeError before any branch is taken;
* a retrieved devbox object is always truthy, so the `if not res` branch
  (lines 24-26) cannot fire on a successful lookup;
* on status "suspended" (lines 27-29) the code calls the async method
  resume_devbox from the synchronous init_devbox without awaiting it: the
  coroutine object is created and discarded, so no resume request is issued
  and nothing awaits the running state — no action is performed;
* on status "shutdown" (lines 30-33) create_devbox is called;
* any other status, including "running", performs no action (line 34). -/
def init_devbox (lookup : LookupResult) : Except String (List DevboxAction) :=
  match lookup with
  | .raisesNotFound => .error "Failed to get Devbox: not found"
  | .returnsNone => .error "AttributeError: NoneType object has no attribute status"
  | .found status =>
    if status = "suspended" then .ok []
    else if status = "shutdown" then .ok [DevboxAction.createDevbox]
    else .ok []

/-! ### DevboxManager.ensure_mcp_files (manager.py lines 97-135) -/

/-- The fixed required-file mapping, in source (dict insertion) order. -/
def required_files : List (String × String) :=
  [("Chinook_Sqlite.sqlite", "/home/user/Chinook_Sqlite.sqlite"),
   ("client.py", "/home/user/client.py"),
   ("server.py", "/home/user/server.py"),
   (".env", "/home/user/.env")]

/-- The upload loop of ensure_mcp_files. `present` models local existence of
each file, `uploadOk` models success of the remote upload_file call (an
external API). The first component of the result is the list of files
actually uploaded before returning or raising; the second is the Python
return value (the files_uploaded flag) or the raised exception. -/
def ensureLoop (present uploadOk : String → Bool) :
    List (String × String) → List String → Bool → List String × Except String Bool
  | [], uploaded, flag => (uploaded.reverse, .ok flag)
  | (f, _) :: rest, uploaded, _ =>
    if present f = false then
      (uploaded.reverse, .error ("Required file " ++ f ++ " not found"))
    else if uploadOk f = false then
      (uploaded.reverse, .error ("Failed to upload " ++ f))
    else
      ensureLoop present uploadOk rest (f :: uploaded) true

/-- DevboxManager.ensure_mcp_files: iterates the fixed four-entry mapping,
raising FileNotFoundError on the first locally missing file, uploading each
existing file as it goes and setting the files_uploaded flag after every
successful upload. The outer try/except re-raises, so exceptions pass
through unchanged. The unused Bool argument of `flag` starts False as on
line 108. -/
def ensure_mcp_files (present uploadOk : String → Bool) :
    List String × Except String Bool :=
  ensureLoop present uploadOk required_files [] false

/-! ### DevboxManager.run_mcp_query, JSON extraction (manager.py lines 160-180) -/

/-- Result of the output-scraping step of run_mcp_query: either parsed JSON
data or the raw stdout wrapped under the raw_output key. -/
inductive QueryData (α : Type) where
  | parsed (a : α)
  | rawOutput (s : List Char)
  deriving Repr, DecidableEq

/-- The JSON-array extraction of run_mcp_query. json.loads is Python stdlib,
modelled by the `parse` parameter (none models a JSONDecodeError, which the
source catches and turns into the raw_output fallback). Python computes
array_start = output.find with -1 when absent, and array_end = rfind + 1
(0 when absent); the guard `array_start >= 0 and array_end > array_start`
fails whenever either character is absent, which the match below encodes
directly on the option-valued finders. -/
def run_mcp_query_extract {α : Type} (parse : List Char → Option α)
    (output : List Char) : QueryData α :=
  match findChar '[' output, rfindChar ']' output with
  | some i, some j =>
    if i < j + 1 then
      match parse (pySlice output i (j + 1)) with
      | some d => .parsed d
      | none => .rawOutput output
    else .rawOutput output
  | _, _ => .rawOutput output

/-! ### DevboxManager.run_visualization_code (manager.py lines 186-219) -/

/-- stdout/stderr pair of one executed remote shell command (no exit code is
surfaced by the source). -/
structure CommandResult where
  stdout : String
  stderr : String
  deriving Repr, DecidableEq

/-- The tail of run_visualization_code after the command execution: a
non-empty (truthy) stderr raises RuntimeError; otherwise stdout is returned
verbatim. The outer try/except re-raises, leaving the outcome unchanged. -/
def run_visualization_code (result : CommandResult) : Except String String :=
  if result.stderr = "" then .ok result.stdout
  else .error ("Error executing visualization code: " ++ result.stderr)

/-! ### VisualizationManager.analyze_data_structure (visualization_manager.py 21-84) -/

/-- Models the Python expression data[0] on the decoded value: first element of
a non-empty list, first character of a non-empty string; dicts raise KeyError
for the key 0, other values raise TypeError. -/
def pyIndexZero : PyJson → Except String PyJson
  | .pylist [] => .error "list index out of range"
  | .pylist (x :: _) => .ok x
  | .pystr s =>
    match s.data with
    | [] => .error "string index out of range"
    | c :: _ => .ok (.pystr (String.mk [c]))
  | .pydict _ => .error "KeyError: 0"
  | _ => .error "TypeError: object is not subscriptable"

/-- Models len(data): defined for lists, strings and dicts, TypeError
otherwise. -/
def pyLen : PyJson → Except String Nat
  | .pylist xs => .ok xs.length
  | .pystr s => .ok s.length
  | .pydict fs => .ok fs.length
  | _ => .error "TypeError: object has no len"

/-- Models sample_record.items(): only dicts have items. -/
def pyItems : PyJson → Except String (List (String × PyJson))
  | .pydict fs => .ok fs
  | _ => .error "AttributeError: object has no attribute items"

/-- The field-classification loop (visualization_manager.py 54-66), returning
(numeric_fields, date_fields, categorical_fields) in iteration order.
isinstance(value, (int, float)) is true for Python booleans as well (bool is
an int subtype); string values whose lowercased field name contains "date"
or "time" are date-like, other strings categorical; values of any other type
fall into no category. -/
def classifyFields : List (String × PyJson) → List String × List String × List String
  | [] => ([], [], [])
  | (field, value) :: rest =>
    let r := classifyFields rest
    match value with
    | .pyint _ => (field :: r.1, r.2.1, r.2.2)
    | .pyfloat _ => (field :: r.1, r.2.1, r.2.2)
    | .pybool _ => (field :: r.1, r.2.1, r.2.2)
    | .pystr _ =>
      if pyInStr "date" (pyLower field) || pyInStr "time" (pyLower field) then
        (r.1, field :: r.2.1, r.2.2)
      else (r.1, r.2.1, field :: r.2.2)
    | _ => r

/-- Assembles the analysis text (visualization_manager.py 52-80): the record
count line, one line per non-empty field category, and the suggestion line
when any suggestion applies. -/
def buildAnalysis (nRecords : Nat) (nums dates cats : List String) : String :=
  let analysis1 := ["Dataset contains " ++ toString nRecords ++ " records"]
  let analysis2 :=
    if nums.isEmpty then analysis1
    else analysis1 ++ ["Numeric fields: " ++ String.intercalate ", " nums]
  let analysis3 :=
    if dates.isEmpty then analysis2
    else analysis2 ++ ["Date/Time fields: " ++ String.intercalate ", " dates]
  let analysis4 :=
    if cats.isEmpty then analysis3
    else analysis3 ++ ["Categorical fields: " ++ String.intercalate ", " cats]
  let sugg1 : List String :=
    if !dates.isEmpty && !nums.isEmpty then ["Time series plots for temporal analysis"] else []
  let sugg2 :=
    if nums.length ≥ 2 then sugg1 ++ ["Scatter plots or line charts for numeric relationships"]
    else sugg1
  let sugg3 :=
    if !cats.isEmpty && !nums.isEmpty then
      sugg2 ++ ["Bar charts or box plots for categorical-numeric relationships"]
    else sugg2
  let sugg4 :=
    if !cats.isEmpty then sugg3 ++ ["Pie charts or bar charts for categorical distributions"]
    else sugg3
  let analysis5 :=
    if sugg4.isEmpty then analysis4
    else analysis4 ++ ["Suggested visualizations: " ++ String.intercalate "; " sugg4]
  String.intercalate "\n" analysis5

/-- The try-block body of analyze_data_structure after a successful
json.loads: the empty/falsy early return, then data[0], len(data), items()
and the classification, any of which may raise (the caller catches). -/
def analyzeBody (data : PyJson) : Except String String :=
  if pyFalsy data then .ok "Empty dataset"
  else do
    let sample ← pyIndexZero data
    let n ← pyLen data
    let fields ← pyItems sample
    let c := classifyFields fields
    .ok (buildAnalysis n c.1 c.2.1 c.2.2)

/-- VisualizationManager.analyze_data_structure. json.loads is Python stdlib,
modelled by the `parse` parameter (error carries str(e)). The except block
on lines 82-84 catches every exception raised in the try block and returns
the error description instead, so the function always returns a string. -/
def analyze_data_structure (parse : String → Except String PyJson)
    (query_response : String) : String :=
  match (parse query_response).bind analyzeBody with
  | .ok r => r
  | .error e => "Error analyzing data structure: " ++ e

/-! ### HTTP routes (routes/chat.py) -/

/-- Outcome of the guard of handle_query (routes/chat.py 12-16): either the
400 response or the query value the handler proceeds with. -/
inductive QueryGate where
  | badRequest (status : Nat) (error : String)
  | proceed (query : PyJson)

/-- The body-validation step of handle_query: request.json.get of the query
key is None when absent; any falsy value (None, empty string, ...) yields
the 400 response with the fixed error body. -/
def handle_query_gate (query : Option PyJson) : QueryGate :=
  match query with
  | none => .badRequest 400 "No query provided"
  | some v => if pyFalsy v then .badRequest 400 "No query provided" else .proceed v

/-- HTTP response of handle_analysis (routes/chat.py 34-49). -/
inductive AnalyzeResponse where
  | badRequest (status : Nat) (error : String)
  | analyzed (status : Nat) (analysis : String)
  | serverError (status : Nat) (error : String)

/-- handle_analysis: request.json.get of the data key, the falsy guard
returning 400 with the fixed error body, then the analyzer applied to
json.dumps of the value (dumps is Python stdlib, a parameter here).
analyze_data_structure never raises, so the except branch of the route is
unreachable and the success path always answers 200. -/
def handle_analysis (parse : String → Except String PyJson) (dumps : PyJson → String)
    (body : List (String × PyJson)) : AnalyzeResponse :=
  match jsonGet body "data" with
  | none => .badRequest 400 "Data is required"
  | some v =>
    if pyFalsy v then .badRequest 400 "Data is required"
    else .analyzed 200 (analyze_data_structure parse (dumps v))

/-! ### Helper lemmas -/

/-- A successful findChar result points at the sought character. -/
theorem findChar_get {c : Char} {s : List Char} {i : Nat}
    (h : findChar c s = some i) : s.get? i = some c := by
  induction s generalizing i with
  | nil => simp [findChar] at h
  | cons x xs ih =>
    simp only [findChar] at h
    split at h
    · next hx =>
      obtain rfl := Option.some.inj h
      simp [List.get?, hx]
    · next hx =>
      rcases Option.map_eq_some'.1 h with ⟨i0, hi0, hi⟩
      subst hi
      simpa [List.get?] using ih hi0

/-- A successful rfindChar result points at the sought character. -/
theorem rfindChar_get {c : Char} {s : List Char} {j : Nat}
    (h : rfindChar c s = some j) : s.get? j = some c := by
  induction s generalizing j with
  | nil => simp [rfindChar] at h
  | cons x xs ih =>
    simp only [rfindChar] at h
    split at h
    · next i hi =>
      obtain rfl := Option.some.inj h
      simpa [List.get?] using ih hi
    · next hnone =>
      split at h
      · next hx =>
        obtain rfl := Option.some.inj h
        simp [List.get?, hx]
      · simp at h

/-- On a run whose remote uploads all succeed, the upload loop stops at the
first locally missing required file: it has uploaded exactly the files
strictly before it in the fixed order and raises the not-found error naming
it. -/
theorem ensureLoop_first_missing (present : String → Bool) :
    ∀ (files : List (String × String)) (acc : List String) (flag : Bool),
      (∃ p ∈ files, present p.1 = false) →
      ensureLoop present (fun _ => true) files acc flag
        = (acc.reverse ++ (files.map Prod.fst).takeWhile present,
           Except.error ("Required file "
             ++ ((files.map Prod.fst).dropWhile present).headD "" ++ " not found")) := by
  intro files
  induction files with
  | nil =>
    intro acc flag h
    rcases h with ⟨p, hp, _⟩
    simp at hp
  | cons q rest ih =>
    intro acc flag h
    obtain ⟨f, r⟩ := q
    by_cases hf : present f = false
    · simp [ensureLoop, hf, List.takeWhile_cons, List.dropWhile_cons]
    · have hft : present f = true := by
        cases hpf : present f
        · exact absurd hpf hf
        · rfl
      have h' : ∃ p ∈ rest, present p.1 = false := by
        rcases h with ⟨p, hp, hpv⟩
        rcases List.mem_cons.1 hp with rfl | hp'
        · have hc : present f = false := hpv
          rw [hc] at hft
          exact Bool.noConfusion hft
        · exact ⟨p, hp', hpv⟩
      have step : ensureLoop present (fun _ => true) ((f, r) :: rest) acc flag
          = ensureLoop present (fun _ => true) rest (f :: acc) true := by
        simp [ensureLoop, hft]
      rw [step, ih (f :: acc) true h']
      simp [hft, List.takeWhile_cons, List.dropWhile_cons, List.reverse_cons,
        List.append_assoc]

/-- A normal return of the upload loop yields the starting flag or True; since
the flag is set to True after the first successful upload, any normal return
past at least one file yields True. -/
theorem ensureLoop_ok_flag (present uploadOk : String → Bool) :
    ∀ (files : List (String × String)) (acc : List String) (flag b : Bool),
      (ensureLoop present uploadOk files acc flag).2 = Except.ok b →
      b = flag ∨ b = true := by
  intro files
  induction files with
  | nil =>
    intro acc flag b h
    simp [ensureLoop] at h
    exact Or.inl h.symm
  | cons q rest ih =>
    intro acc flag b h
    obtain ⟨f, r⟩ := q
    by_cases hp : present f = false
    · simp [ensureLoop, hp] at h
    · by_cases hu : uploadOk f = false
      · simp [ensureLoop, hp, hu] at h
      · have step : ensureLoop present uploadOk ((f, r) :: rest) acc flag
            = ensureLoop present uploadOk rest (f :: acc) true := by
          simp [ensureLoop, hp, hu]
        rw [step] at h
        rcases ih (f :: acc) true b h with h1 | h1
        · exact Or.inr h1
        · exact Or.inr h1

/-! ### Claim theorems -/

/-- C1: init_devbox does NOT implement the documented reconciliation table.
On status "shutdown" it creates a devbox and on "running" it does nothing, as
documented; but on "suspended" it performs no action at all (the async
resume_devbox is called without being awaited, so the coroutine is discarded
and no resume request is issued, let alone awaited to running), and when the
session is absent the constructor propagates an exception instead of creating
a session (retrieve raising makes check_devbox_exists re-raise; retrieve
returning None makes the res.status log line raise before any branch). -/
theorem c1_init_devbox_reconciliation :
    init_devbox (LookupResult.found "running") = Except.ok []
    ∧ init_devbox (LookupResult.found "shutdown") = Except.ok [DevboxAction.createDevbox]
    ∧ init_devbox (LookupResult.found "suspended") = Except.ok []
    ∧ (∃ e, init_devbox LookupResult.raisesNotFound = Except.error e)
    ∧ (∃ e, init_devbox LookupResult.returnsNone = Except.error e) :=
  ⟨rfl, rfl, rfl, ⟨_, rfl⟩, ⟨_, rfl⟩⟩

/-- C2 counterexample: with the database file present locally and client.py
absent, ensure_mcp_files raises the not-found error but has already uploaded
the database file — the upload batch is not all-or-nothing. -/
theorem c2_counterexample_partial_upload :
    ensure_mcp_files (fun f => decide (f = "Chinook_Sqlite.sqlite")) (fun _ => true)
      = (["Chinook_Sqlite.sqlite"],
         Except.error "Required file client.py not found") := by
  rfl

/-- C2 amended: if at least one of the four required local files is absent,
ensure_mcp_files raises a not-found error naming the first missing file, and
the files uploaded before the abort are exactly the present ones strictly
preceding that first missing file in the fixed order (so nothing at or after
the first missing file is uploaded; when the first file of the order is the
missing one, nothing at all is uploaded). -/
theorem c2_missing_file_aborts_at_first_gap (present : String → Bool)
    (h : ∃ p ∈ required_files, present p.1 = false) :
    ensure_mcp_files present (fun _ => true)
      = ((required_files.map Prod.fst).takeWhile present,
         Except.error ("Required file "
           ++ ((required_files.map Prod.fst).dropWhile present).headD ""
           ++ " not found")) := by
  have h0 := ensureLoop_first_missing present required_files [] false h
  simpa [ensure_mcp_files] using h0

/-- C2 amended, witness: only the database file present. -/
theorem c2_missing_file_aborts_witness :
    ensure_mcp_files (fun f => decide (f = "Chinook_Sqlite.sqlite")) (fun _ => true)
      = ((required_files.map Prod.fst).takeWhile
           (fun f => decide (f = "Chinook_Sqlite.sqlite")),
         Except.error ("Required file "
           ++ ((required_files.map Prod.fst).dropWhile
                 (fun f => decide (f = "Chinook_Sqlite.sqlite"))).headD ""
           ++ " not found")) :=
  c2_missing_file_aborts_at_first_gap _
    ⟨("client.py", "/home/user/client.py"), by decide, by decide⟩

/-- C3: the query executor's output scraping. If stdout has a first occurrence
of the opening bracket at index i and a last occurrence of the closing bracket
at a later index j and the slice between them parses as JSON data a, the
result is that parsed data; if stdout has no opening/closing bracket pair in
order, the result is the full stdout wrapped as raw output; and if the
extracted slice fails to parse, the result falls back to the same raw-output
wrapper — the extraction is a total function and never fails. -/
theorem c3_run_mcp_query_extraction {α : Type} (parse : List Char → Option α)
    (output : List Char) :
    (∀ i j a, findChar '[' output = some i → rfindChar ']' output = some j →
        i ≤ j → parse (pySlice output i (j + 1)) = some a →
        run_mcp_query_extract parse output = QueryData.parsed a)
    ∧ ((∀ i j, i ≤ j → ¬(output.get? i = some '[' ∧ output.get? j = some ']')) →
        run_mcp_query_extract parse output = QueryData.rawOutput output)
    ∧ (∀ i j, findChar '[' output = some i → rfindChar ']' output = some j →
        parse (pySlice output i (j + 1)) = none →
        run_mcp_query_extract parse output = QueryData.rawOutput output) := by
  refine ⟨?_, ?_, ?_⟩
  · intro i j a hf hr hij hp
    simp [run_mcp_query_extract, hf, hr, Nat.lt_succ_of_le hij, hp]
  · intro hnp
    rcases hf : findChar '[' output with _ | i
    · simp [run_mcp_query_extract, hf]
    · rcases hr : rfindChar ']' output with _ | j
      · simp [run_mcp_query_extract, hf, hr]
      · by_cases hij : i ≤ j
        · exact absurd ⟨findChar_get hf, rfindChar_get hr⟩ (hnp i j hij)
        · simp only [run_mcp_query_extract, hf, hr]
          rw [if_neg (by omega)]
  · intro i j hf hr hp
    by_cases hij : i < j + 1
    · simp [run_mcp_query_extract, hf, hr, hij, hp]
    · simp only [run_mcp_query_extract, hf, hr]
      rw [if_neg hij]

/-- C3 witness: stdout with a bracket pair and a parser accepting the slice. -/
theorem c3_run_mcp_query_extraction_witness :
    run_mcp_query_extract (fun _ => some 0) "x[]y".data = QueryData.parsed 0 :=
  (c3_run_mcp_query_extraction (fun _ => some 0) "x[]y".data).1 1 2 0 rfl rfl
    (by omega) rfl

/-- C4: run_visualization_code raises whenever stderr is non-empty, whatever
stdout holds, and returns stdout verbatim when stderr is empty. -/
theorem c4_visualization_stderr_policy (r : CommandResult) :
    (r.stderr ≠ "" →
      run_visualization_code r
        = Except.error ("Error executing visualization code: " ++ r.stderr))
    ∧ (r.stderr = "" → run_visualization_code r = Except.ok r.stdout) := by
  constructor
  · intro h
    simp [run_visualization_code, h]
  · intro h
    simp [run_visualization_code, h]

/-- C4 witness: stdout the two-character brace string with stderr "warning"
still raises. -/
theorem c4_visualization_stderr_policy_witness :
    run_visualization_code (CommandResult.mk "\x7b\x7d" "warning")
      = Except.error ("Error executing visualization code: " ++ "warning") :=
  (c4_visualization_stderr_policy (CommandResult.mk "\x7b\x7d" "warning")).1
    (by decide)

/-- C5: a query request body without a query key makes handle_query answer
400 with the fixed error text. -/
theorem c5_query_missing_is_400 (body : List (String × PyJson))
    (h : ∀ kv ∈ body, kv.1 ≠ "query") :
    handle_query_gate (jsonGet body "query")
      = QueryGate.badRequest 400 "No query provided" := by
  have hn : jsonGet body "query" = none := by
    have hfind : body.find? (fun kv => kv.1 = "query") = none := by
      rw [List.find?_eq_none]
      intro x hx
      simp [h x hx]
    simp [jsonGet, hfind]
  rw [hn]
  rfl

/-- C5 witness: a body holding only an unrelated key. -/
theorem c5_query_missing_is_400_witness :
    handle_query_gate (jsonGet [("other", PyJson.null)] "query")
      = QueryGate.badRequest 400 "No query provided" :=
  c5_query_missing_is_400 [("other", PyJson.null)] (by decide)

/-- C6: an input that json.loads turns into the empty list makes
analyze_data_structure return exactly the literal string Empty dataset. -/
theorem c6_empty_list_is_empty_dataset (parse : String → Except String PyJson)
    (s : String) (h : parse s = Except.ok (PyJson.pylist [])) :
    analyze_data_structure parse s = "Empty dataset" := by
  unfold analyze_data_structure
  rw [h]
  rfl

/-- C6 witness: the literal empty JSON array. -/
theorem c6_empty_list_witness :
    analyze_data_structure (fun _ => Except.ok (PyJson.pylist [])) "[]"
      = "Empty dataset" :=
  c6_empty_list_is_empty_dataset _ "[]" rfl

/-- The sample record used by the spec's analyzer example. -/
def saleRecord : List (String × PyJson) :=
  [("sale_date", PyJson.pystr "2024-01-01"),
   ("amount", PyJson.pyfloat (12.5 : Rat)),
   ("region", PyJson.pystr "west")]

/-- C7: on the sample record the analyzer classifies sale_date as date-like,
amount as numeric and region as categorical, and — since both a date field
and a numeric field are present — its returned summary contains the
time-series suggestion. -/
theorem c7_sale_record_classification :
    classifyFields saleRecord = (["amount"], ["sale_date"], ["region"])
    ∧ pyInStr "Time series plots for temporal analysis"
        (analyze_data_structure
          (fun _ => Except.ok (PyJson.pylist [PyJson.pydict saleRecord]))
          "query-output")
        = true := by
  constructor
  · rfl
  · rfl

/-- C8: analyze_data_structure is a total function into strings — it never
propagates a failure. Whenever json.loads or any later analysis step fails,
the result is the error-description string built from the exception text;
otherwise it is the computed analysis. -/
theorem c8_analyze_never_raises (parse : String → Except String PyJson)
    (s : String) :
    (∃ e, (parse s).bind analyzeBody = Except.error e
        ∧ analyze_data_structure parse s = "Error analyzing data structure: " ++ e)
    ∨ (∃ r, (parse s).bind analyzeBody = Except.ok r
        ∧ analyze_data_structure parse s = r) := by
  cases h : (parse s).bind analyzeBody with
  | error e =>
    refine Or.inl ⟨e, rfl, ?_⟩
    unfold analyze_data_structure
    rw [h]
  | ok r =>
    refine Or.inr ⟨r, rfl, ?_⟩
    unfold analyze_data_structure
    rw [h]

/-- C9: whenever ensure_mcp_files returns normally, its value is True — the
required-file mapping is a fixed non-empty set and every file is re-uploaded
on every call, so the files-were-already-present False outcome cannot occur
and the route's guarded query step always runs after a successful upload. -/
theorem c9_ensure_normal_return_is_true (present uploadOk : String → Bool)
    (b : Bool) (h : (ensure_mcp_files present uploadOk).2 = Except.ok b) :
    b = true := by
  by_cases hp : present "Chinook_Sqlite.sqlite" = false
  · simp [ensure_mcp_files, required_files, ensureLoop, hp] at h
  · by_cases hu : uploadOk "Chinook_Sqlite.sqlite" = false
    · simp [ensure_mcp_files, required_files, ensureLoop, hp, hu] at h
    · have step : ensure_mcp_files present uploadOk
          = ensureLoop present uploadOk
              [("client.py", "/home/user/client.py"),
               ("server.py", "/home/user/server.py"),
               (".env", "/home/user/.env")]
              ["Chinook_Sqlite.sqlite"] true := by
        simp [ensure_mcp_files, required_files, ensureLoop, hp, hu]
      rw [step] at h
      rcases ensureLoop_ok_flag present uploadOk _ _ _ _ h with h1 | h1
      · exact h1
      · exact h1

/-- C9 witness: all files present and all uploads succeeding. -/
theorem c9_ensure_normal_return_witness :
    (ensure_mcp_files (fun _ => true) (fun _ => true)).2 = Except.ok true
    ∧ true = true :=
  ⟨rfl, c9_ensure_normal_return_is_true (fun _ => true) (fun _ => true) true rfl⟩

/-- C10: an analysis request whose data value is falsy (absent key, null,
empty list, empty object, empty string, zero or false) is answered 400 with
the fixed error body and the analyzer is never reached — in particular the
response is never the analyzer's Empty dataset result. -/
theorem c10_analyze_falsy_data_is_400 (parse : String → Except String PyJson)
    (dumps : PyJson → String) (body : List (String × PyJson))
    (h : pyFalsyOpt (jsonGet body "data") = true) :
    handle_analysis parse dumps body = AnalyzeResponse.badRequest 400 "Data is required"
    ∧ ∀ s, handle_analysis parse dumps body ≠ AnalyzeResponse.analyzed 200 s := by
  have hb : handle_analysis parse dumps body
      = AnalyzeResponse.badRequest 400 "Data is required" := by
    unfold handle_analysis
    cases hg : jsonGet body "data" with
    | none => rfl
    | some v =>
      rw [hg] at h
      simp only [pyFalsyOpt] at h
      simp [h]
  refine ⟨hb, ?_⟩
  intro s hc
  rw [hb] at hc
  exact AnalyzeResponse.noConfusion hc

/-- C10 witness: the empty JSON array as the data value. -/
theorem c10_analyze_falsy_data_witness :
    pyFalsyOpt (jsonGet [("data", PyJson.pylist [])] "data") = true
    ∧ handle_analysis (fun _ => Except.ok (PyJson.pylist [])) (fun _ => "")
        [("data", PyJson.pylist [])]
        = AnalyzeResponse.badRequest 400 "Data is required" :=
  ⟨rfl,
   (c10_analyze_falsy_data_is_400 (fun _ => Except.ok (PyJson.pylist []))
     (fun _ => "") [("data", PyJson.pylist [])] rfl).1⟩

end Chinook
